import Mathlib

/-!
Shallow embedding of the PFLTK storage engine, war synchronizer and ticket
service (files under src/src/db and src/src/initialization), together with
theorems settling the frozen claims about them.

Conventions of the embedding:
* SQLite TEXT, INTEGER and REAL columns are modelled as String, Int and Rat.
* A connection carries a committed database and a pending database; every
  statement acts on the pending copy (a connection sees its own uncommitted
  writes) and `Conn.commit` publishes the pending copy.  After a run that
  raised, the data visible to later readers is the committed copy (an
  unfinished transaction is rolled back when the connection closes).
* Python exceptions are modelled by the `PyError` inductive and fallible
  code returns `Except PyError`.
-/

namespace PFLTK

/-- The Python exception kinds raised by the code paths under study. -/
inductive PyError where
  /-- `ValueError` (negative war number, `max` of an empty list). -/
  | valueError
  /-- `TypeError` (calling `fromisoformat` on a non-string, unpacking `None`,
  calling a constructor with too many arguments). -/
  | typeError
  /-- `KeyError` (failed `Role[...]` member lookup). -/
  | keyError
  /-- `AttributeError` (reading a named attribute off a plain tuple). -/
  | attributeError
  /-- A `requests` network or HTTP failure from the Map Data Source. -/
  | networkError
  /-- `sqlite3.IntegrityError` (primary-key violation). -/
  | integrityError
  /-- `MultipleUniqueRowsException`. -/
  | multipleUniqueRows
  /-- `UniqueRowNotFoundException`. -/
  | uniqueRowNotFound
  /-- `UniqueRowAlreadyExistsException`. -/
  | uniqueRowAlreadyExists
  /-- `NoDataReturnedException`. -/
  | noDataReturned
  /-- `NewerWarAlreadyExistsException`, with the proposed and latest numbers. -/
  | newerWarAlreadyExists (proposed : Int) (latest : Int)
  /-- `NoMapsForCurrentWarException`. -/
  | noMapsForCurrentWar
  /-- `NoLabelsForMapInCurrentWarException`. -/
  | noLabelsForMapInCurrentWar
  /-- `MapDoesNotExistInCurrentWarException`. -/
  | mapDoesNotExistInCurrentWar
  /-- `MapDoesNotExistException`. -/
  | mapDoesNotExist
  /-- `CannotCreateTicketForWarException`. -/
  | cannotCreateTicketForWar
  /-- `sqlite3.OperationalError`: the statement names a table the schema
  does not define. -/
  | noSuchTable (table : String)
  /-- `sqlite3.OperationalError`: a bare INSERT supplies a number of values
  different from the number of columns of the table. -/
  | arityMismatch (table : String) (columns : Nat) (supplied : Nat)
  deriving DecidableEq, Repr

/-- An in-memory Python `datetime.datetime` object, identified by its
ISO-8601 rendering (the only thing the code ever does with one). -/
structure PyDatetime where
  iso : String
  deriving DecidableEq, Repr

/-- `DB.format_date_for_db` (db.py): returns `dt.isoformat()`. -/
def format_date_for_db (dt : PyDatetime) : String := dt.iso

/-- `DB.format_date_from_db` (db.py): its body is
`datetime.datetime.fromisoformat(str)` — it applies `fromisoformat` to the
builtin `str` type itself instead of to the argument `dt`, and CPython
rejects a non-string argument with `TypeError`.  The result therefore does
not depend on the input: every call raises `TypeError`. -/
def format_date_from_db (_dt : String) : Except PyError PyDatetime :=
  .error .typeError

/-- A row of the `wars` table: `(war_number INTEGER, last_fetched_on TEXT)`. -/
structure WarRow where
  war_number : Int
  last_fetched_on : String
  deriving DecidableEq, Repr

/-- A row of the `maps` table: `(map_name TEXT, war_number INTEGER)`. -/
structure MapRow where
  map_name : String
  war_number : Int
  deriving DecidableEq, Repr

/-- A row of the table named `labels` that labels.py addresses.  (The DDL in
`DB.generate_db` names its label table `major_labels`; that mismatch is
modelled at the statement level by `generate_db_tables`, see claim C10.) -/
structure LabelRow where
  map_name : String
  war_number : Int
  label : String
  x : Rat
  y : Rat
  deriving DecidableEq, Repr

/-- A row of the `icons` table as icons.py addresses it, with six fields.
(The DDL in `DB.generate_db` declares only five columns for `icons`; that
mismatch is modelled at the statement level by `generate_db_tables`.) -/
structure IconRow where
  map_name : String
  war_number : Int
  x : Rat
  y : Rat
  icon_type : Int
  flags : Int
  deriving DecidableEq, Repr

/-- A row of the `tickets` table. -/
structure TicketRow where
  ticket_number : Int
  war_number : Int
  destination_map_name : String
  destination_x : Rat
  destination_y : Rat
  destination_description : String
  origin_map_name : Option String
  origin_x : Option Rat
  origin_y : Option Rat
  origin_description : Option String
  objective_description : String
  created_on : String
  deriving DecidableEq, Repr

/-- A row of the `users` table that users.py addresses: the INSERT stores
`(user_id, guild, role.name)`, so the role column holds the enum member
name as text. -/
structure UserRow where
  user_id : Int
  guild : String
  role : String
  deriving DecidableEq, Repr

/-- The logical database: the tables addressed by the DML of the modules
under src/src/db, as lists of rows. -/
structure DBState where
  wars : List WarRow := []
  maps : List MapRow := []
  labels : List LabelRow := []
  icons : List IconRow := []
  tickets : List TicketRow := []
  users : List UserRow := []
  deriving DecidableEq, Repr

/-- A SQLite connection: the committed database plus the pending view the
connection itself reads and writes. -/
structure Conn where
  committed : DBState
  pending : DBState
  deriving DecidableEq, Repr

/-- `conn.commit()`: publish the pending state. -/
def Conn.commit (c : Conn) : Conn := ⟨c.pending, c.pending⟩

/-- A freshly opened connection over a committed database. -/
def freshConn (db : DBState) : Conn := ⟨db, db⟩

/-- Python `max` over a nonempty list of integers, given as head and tail. -/
def listMax (x : Int) (xs : List Int) : Int := xs.foldl max x

/-- Python `max` over a list of integers; `ValueError` on an empty list. -/
def pyMaxInt : List Int → Except PyError Int
  | [] => .error .valueError
  | x :: xs => .ok (listMax x xs)

/-- `SELECT MAX(war_number) FROM wars`: SQL MAX, NULL (`none`) on an empty
table. -/
def maxWarNumber (rows : List WarRow) : Option Int :=
  rows.foldl
    (fun acc r =>
      match acc with
      | none => some r.war_number
      | some m => some (max m r.war_number))
    none

/-- `wars.select_latest_war` (wars.py): selects the rows whose war_number
equals the maximum, raises `MultipleUniqueRowsException` on more than one,
returns `None` on zero, and otherwise converts the stored date with
`DB.format_date_from_db` — which raises `TypeError` unconditionally, so a
non-empty wars table always makes this function raise. -/
def select_latest_war (conn : Conn) : Except PyError (Option (Int × PyDatetime)) :=
  let results := conn.pending.wars.filter
    (fun r => some r.war_number == maxWarNumber conn.pending.wars)
  if results.length > 1 then
    .error .multipleUniqueRows
  else
    match results with
    | [] => .ok none
    | r :: _ =>
      match format_date_from_db r.last_fetched_on with
      | .error e => .error e
      | .ok pulled_on => .ok (some (r.war_number, pulled_on))

/-- The local `_war_already_exists` of `wars.insert_war`. -/
def war_already_exists (conn : Conn) (war_num : Int) : Except PyError Bool :=
  let results := conn.pending.wars.filter (fun r => r.war_number == war_num)
  if results.length > 1 then
    .error .multipleUniqueRows
  else
    .ok (results.length == 1)

/-- The local `_submit_new_war` of `wars.insert_war`: INSERT the row with
the date formatted by `format_date_for_db`, then `conn.commit()`. -/
def submit_new_war (war_number : Int) (last_fetched_on : PyDatetime) (conn : Conn) : Conn :=
  let row : WarRow := ⟨war_number, format_date_for_db last_fetched_on⟩
  Conn.commit { conn with pending := { conn.pending with wars := conn.pending.wars ++ [row] } }

/-- `wars.insert_war` (wars.py): rejects a negative number with `ValueError`,
a duplicate with `UniqueRowAlreadyExistsException`, then consults
`select_latest_war` for the staleness check (which raises `TypeError` as
soon as any war row exists), and otherwise submits and commits the row. -/
def insert_war (war_number : Int) (last_fetched_on : PyDatetime) (conn : Conn) :
    Except PyError Conn := do
  if war_number < 0 then throw .valueError
  let exists_ ← war_already_exists conn war_number
  if exists_ then throw .uniqueRowAlreadyExists
  let latest_war_tuple ← select_latest_war conn
  match latest_war_tuple with
  | some (latest_num, _pulled) =>
    if latest_num > war_number then
      throw (.newerWarAlreadyExists war_number latest_num)
    else
      return submit_new_war war_number last_fetched_on conn
  | none => return submit_new_war war_number last_fetched_on conn

/-- `SELECT MAX(war_number) FROM maps` (the subquery of
`maps.select_latest_maps`). -/
def maxMapWarNumber (rows : List MapRow) : Option Int :=
  rows.foldl
    (fun acc r =>
      match acc with
      | none => some r.war_number
      | some m => some (max m r.war_number))
    none

/-- `maps.insert_map` (maps.py): `INSERT INTO maps VALUES (?, ?)`, with the
`pk_maps` primary key rejecting a duplicate `(map_name, war_number)`.  No
commit. -/
def insert_map (map_name : String) (war_number : Int) (conn : Conn) :
    Except PyError Conn :=
  if MapRow.mk map_name war_number ∈ conn.pending.maps then
    .error .integrityError
  else
    .ok { conn with pending :=
      { conn.pending with maps := conn.pending.maps ++ [⟨map_name, war_number⟩] } }

/-- `maps.select_latest_maps` (maps.py): the first line unpacks
`select_latest_war(conn)` into two variables, so an empty wars table (where
that call returns `None`) raises `TypeError`, and a non-empty wars table
makes the call itself raise `TypeError` (see `select_latest_war`).  The
remainder selects the map rows of the maximum war number *of the maps
table*, raising `NoDataReturnedException` when the maps table is empty and
`NoMapsForCurrentWarException` when their maximum is below the latest
war. -/
def select_latest_maps (conn : Conn) : Except PyError (List MapRow) := do
  let latest_pair ← select_latest_war conn
  let (latest_war, _latest_war_fetched_on) ←
    match latest_pair with
    | none => throw PyError.typeError
    | some p => pure p
  let results := conn.pending.maps.filter
    (fun m => some m.war_number == maxMapWarNumber conn.pending.maps)
  match results with
  | [] => throw .noDataReturned
  | m0 :: rest =>
    if listMax m0.war_number (rest.map MapRow.war_number) < latest_war then
      throw .noMapsForCurrentWar
    else
      return m0 :: rest

/-- `labels.insert_label` (labels.py): `INSERT INTO labels VALUES
(?,?,?,?,?)`, no commit.  Row-level semantics of the statement; note the
DDL of `DB.generate_db` defines no table named `labels` (that mismatch is
the subject of claim C10 and is modelled by `insert_label_sql`). -/
def insert_label (map_name : String) (war_number : Int) (label : String)
    (x y : Rat) (conn : Conn) : Conn :=
  { conn with pending :=
    { conn.pending with labels := conn.pending.labels ++ [⟨map_name, war_number, label, x, y⟩] } }

/-- `labels.select_latest_labels_for_map` (labels.py): unpacks
`select_latest_war(conn)` (raising `TypeError` exactly as in
`select_latest_maps`), then selects the label rows of the given map in the
latest war, raising `NoLabelsForMapInCurrentWarException` when there are
none. -/
def select_latest_labels_for_map (map_name : String) (conn : Conn) :
    Except PyError (List LabelRow) := do
  let latest_pair ← select_latest_war conn
  let (latest_war, _latest_pulled_on) ←
    match latest_pair with
    | none => throw PyError.typeError
    | some p => pure p
  let results := conn.pending.labels.filter
    (fun l => l.map_name == map_name && l.war_number == latest_war)
  match results with
  | [] => throw .noLabelsForMapInCurrentWar
  | l0 :: rest => return l0 :: rest

/-- `icons.insert_icon` (icons.py): `INSERT INTO icons VALUES
(?,?,?,?,?,?)`, no commit.  Row-level semantics of the statement; the DDL
of `DB.generate_db` gives `icons` only five columns (see claim C10 and
`insert_icon_sql`). -/
def insert_icon (map_name : String) (war_number : Int) (x y : Rat)
    (icon_type flags : Int) (conn : Conn) : Conn :=
  { conn with pending :=
    { conn.pending with icons := conn.pending.icons ++ [⟨map_name, war_number, x, y, icon_type, flags⟩] } }

/-- `icons.get_latest_icons_for_map` (icons.py): unpacks
`select_latest_war(conn)` — raising `TypeError` for both an empty and a
non-empty wars table, exactly as in `select_latest_maps` — then checks the
map against `select_latest_maps(conn)`.  On a missing map it evaluates
`MapDoesNotExistInCurrentWarException(map_name, latest_war)`: that class
defines `__init__(map_name, last_known_war=None)` without a `self`
parameter, so the two-argument construction itself raises `TypeError`.
Otherwise it returns the icon rows of that map in the latest war. -/
def get_latest_icons_for_map (map_name : String) (conn : Conn) :
    Except PyError (List IconRow) := do
  let latest_pair ← select_latest_war conn
  let (latest_war, _latest_war_fetched_on) ←
    match latest_pair with
    | none => throw PyError.typeError
    | some p => pure p
  let latest_maps ← select_latest_maps conn
  if map_name ∉ latest_maps.map MapRow.map_name then
    throw PyError.typeError
  else
    return conn.pending.icons.filter
      (fun i => i.map_name == map_name && i.war_number == latest_war)

/-- A label tuple as `warAPI.get_labels` returns it:
`(text, x, y, mapMarkerType)`. -/
structure APILabel where
  text : String
  x : Rat
  y : Rat
  mapMarkerType : String
  deriving DecidableEq, Repr

/-- An icon tuple as `warAPI.get_icons` returns it:
`(x, y, iconType, flags)`. -/
structure APIIcon where
  x : Rat
  y : Rat
  iconType : Int
  flags : Int
  deriving DecidableEq, Repr

/-- The Map Data Source as observed by one `sync_war` run: each fetcher
either returns its parsed payload or raises (a network or HTTP error from
`requests`).  `get_labels` is the result of the call with
`label_type="Both"`, the only form `sync_war` issues. -/
structure WarAPI where
  get_war : Except PyError (Int × PyDatetime)
  get_maps : Except PyError (List String)
  get_labels : String → Except PyError (List APILabel)
  get_icons : String → Except PyError (List APIIcon)

/-- The per-hex loop of `initialization.sync_war` (steps 4a-4c): for each
hex name, `insert_map` then `conn.commit()`; fetch the labels, insert each
(`label_tuple[:3]` keeps `(text, x, y)`), then `conn.commit()`; fetch the
icons and insert each — with no commit after the icon inserts.  Any raise
aborts the loop with the connection as it stood. -/
def sync_hexes (api : WarAPI) (war_number : Int) :
    List String → Conn → Conn × Option PyError
  | [], conn => (conn, none)
  | hex :: rest, conn =>
    match insert_map hex war_number conn with
    | .error e => (conn, some e)
    | .ok conn1 =>
      let conn2 := conn1.commit
      match api.get_labels hex with
      | .error e => (conn2, some e)
      | .ok label_tuples =>
        let conn3 := label_tuples.foldl
          (fun c lt => insert_label hex war_number lt.text lt.x lt.y c) conn2
        let conn4 := conn3.commit
        match api.get_icons hex with
        | .error e => (conn4, some e)
        | .ok icon_tuples =>
          let conn5 := icon_tuples.foldl
            (fun c it => insert_icon hex war_number it.x it.y it.iconType it.flags c) conn4
          sync_hexes api war_number rest conn5

/-- `initialization.sync_war`: fetch the current war, read
`select_latest_war`, and stop when the stored war is not older; insert the
new war row (`insert_war` commits it immediately); fetch the hex names and
run the per-hex loop.  The pair returned is the connection at the end of
the run and the exception that aborted it, if any.

Two slips are embedded faithfully: a non-empty wars table makes
`select_latest_war` raise `TypeError` (see there), and were it to return a
row, the code reads `latest_war_in_db.war_number` off a plain tuple, which
would raise `AttributeError`. -/
def sync_war (api : WarAPI) (conn : Conn) : Conn × Option PyError :=
  match api.get_war with
  | .error e => (conn, some e)
  | .ok (current_war_number, pulled_on) =>
    match select_latest_war conn with
    | .error e => (conn, some e)
    | .ok latest_war_in_db =>
      match latest_war_in_db with
      | some _ => (conn, some .attributeError)
      | none =>
        match insert_war current_war_number pulled_on conn with
        | .error e => (conn, some e)
        | .ok conn1 =>
          match api.get_maps with
          | .error e => (conn1, some e)
          | .ok hex_names => sync_hexes api current_war_number hex_names conn1

/-- Modelled from the spec: the `War` record `{war_number, observed_at}`
(spec section 3).  `tickets.py` and `initialization` import `War` from
`src.db.wars`, but no such class is defined anywhere under src; its shape
is fixed by its call sites (`War(*row)` over `SELECT * FROM wars` rows,
where the second component is the stored TEXT). -/
structure War where
  war_number : Int
  pulled_on : String
  deriving DecidableEq, Repr

/-- A ticket draft as handed to `tickets.insert_ticket` (the `Ticket`
NamedTuple of tickets.py). -/
structure Ticket where
  war_number : Int
  destination_map_name : String
  destination_x : Rat
  destination_y : Rat
  destination_description : String
  origin_map_name : Option String
  origin_x : Option Rat
  origin_y : Option Rat
  origin_description : Option String
  objective_description : String
  created_on : PyDatetime
  deriving DecidableEq, Repr

/-- The local `_assert_war_is_real_and_current` of `tickets.insert_ticket`:
reads every wars row into a `War`, raises `NoDataReturnedException` on an
empty table, and raises `CannotCreateTicketForWarException` when the given
war number is below or above the maximum on record. -/
def assert_war_is_real_and_current (war_number : Int) (conn : Conn) :
    Except PyError Unit := do
  let wars := conn.pending.wars.map (fun r => War.mk r.war_number r.last_fetched_on)
  if wars.length == 0 then throw .noDataReturned
  let newest_war ← pyMaxInt (wars.map War.war_number)
  if war_number < newest_war then
    throw .cannotCreateTicketForWar
  else if war_number > newest_war then
    throw .cannotCreateTicketForWar
  else
    return ()

/-- The local `_assert_map_is_real_and_current` of `tickets.insert_ticket`:
raises `MapDoesNotExistException` when no maps row of any war carries the
name, and `MapDoesNotExistInCurrentWarException` when none carries
`(map_name, war_number)`.  (This raise passes a single message argument,
which the `self`-less `__init__` of that class happens to accept.) -/
def assert_map_is_real_and_current (map_name : String) (war_number : Int)
    (conn : Conn) : Except PyError Unit :=
  let maps := conn.pending.maps
  if map_name ∉ maps.map MapRow.map_name then
    .error .mapDoesNotExist
  else if MapRow.mk map_name war_number ∉ maps then
    .error .mapDoesNotExistInCurrentWar
  else
    .ok ()

/-- The `has_valid_origin` test of `tickets.insert_ticket`: all four origin
fields are present. -/
def has_valid_origin (t : Ticket) : Bool :=
  t.origin_map_name.isSome && t.origin_x.isSome
    && t.origin_y.isSome && t.origin_description.isSome

/-- The AUTOINCREMENT id SQLite assigns to the next tickets row (one more
than the largest id ever used; with no deletes, one more than the current
maximum, and 1 on an empty table). -/
def next_ticket_number (rows : List TicketRow) : Int :=
  (rows.foldl (fun m r => max m r.ticket_number) 0) + 1

/-- `tickets.insert_ticket` (tickets.py): assert the war is current, assert
the destination map, and — only when all four origin fields are present —
assert the origin map and store the origin; otherwise the 7-column INSERT
leaves every origin column NULL.  Commits, and returns
`cursor.lastrowid`. -/
def insert_ticket (t : Ticket) (conn : Conn) : Except PyError (Int × Conn) := do
  assert_war_is_real_and_current t.war_number conn
  assert_map_is_real_and_current t.destination_map_name t.war_number conn
  if has_valid_origin t then
    match t.origin_map_name with
    | some origin_name => assert_map_is_real_and_current origin_name t.war_number conn
    | none => pure ()   -- unreachable: has_valid_origin requires it present
  let tid := next_ticket_number conn.pending.tickets
  let row : TicketRow :=
    if has_valid_origin t then
      ⟨tid, t.war_number, t.destination_map_name, t.destination_x, t.destination_y,
        t.destination_description, t.origin_map_name, t.origin_x, t.origin_y,
        t.origin_description, t.objective_description, format_date_for_db t.created_on⟩
    else
      ⟨tid, t.war_number, t.destination_map_name, t.destination_x, t.destination_y,
        t.destination_description, none, none, none, none,
        t.objective_description, format_date_for_db t.created_on⟩
  let conn1 := Conn.commit
    { conn with pending := { conn.pending with tickets := conn.pending.tickets ++ [row] } }
  return (tid, conn1)

/-- The `Role` enum of users.py. -/
inductive Role where
  | TEAMSTER
  | SUBMITTER
  | SUPERVISOR
  | ADMIN
  deriving DecidableEq, Repr

/-- The `.name` of a `Role` member (the INSERT of
`insert_or_update_user` stores this, not the lowercase `.value`). -/
def Role.name : Role → String
  | .TEAMSTER => "TEAMSTER"
  | .SUBMITTER => "SUBMITTER"
  | .SUPERVISOR => "SUPERVISOR"
  | .ADMIN => "ADMIN"

/-- The `User` NamedTuple of users.py. -/
structure User where
  user_id : Int
  guild : String
  role : Role
  deriving DecidableEq, Repr

/-- A Python object used as a lookup key into the `Role` member map:
either a plain string, or a whole fetched row (a tuple of the selected
column values). -/
inductive PyKey where
  | s (v : String)
  | row (v : List String)
  deriving DecidableEq, Repr

/-- Python `Role[key]`: membership lookup keyed by the member names.  A key
that is not one of the four name strings — in particular a row tuple —
raises `KeyError`. -/
def roleGetItem : PyKey → Except PyError Role
  | .s "TEAMSTER" => .ok .TEAMSTER
  | .s "SUBMITTER" => .ok .SUBMITTER
  | .s "SUPERVISOR" => .ok .SUPERVISOR
  | .s "ADMIN" => .ok .ADMIN
  | _ => .error .keyError

/-- `users.insert_or_update_user` (users.py): a plain
`INSERT INTO users VALUES (?, ?, ?)` of `(user_id, guild, role.name)`, with
no conflict handling and no commit. -/
def insert_or_update_user (user : User) (conn : Conn) : Conn :=
  { conn with pending :=
    { conn.pending with users := conn.pending.users ++ [⟨user.user_id, user.guild, user.role.name⟩] } }

/-- `users.select_user_role` (users.py): selects the `role` column of the
matching rows, raises `UniqueRowNotFoundException` on no rows, and
otherwise evaluates `Role[results[0]]` — passing the whole fetched row
tuple, not its single string, to the member lookup. -/
def select_user_role (user_id : Int) (guild : String) (conn : Conn) :
    Except PyError Role :=
  let results := (conn.pending.users.filter
    (fun r => r.user_id == user_id && r.guild == guild)).map (fun r => [r.role])
  match results with
  | [] => .error .uniqueRowNotFound
  | r0 :: _ => roleGetItem (.row r0)

/-- The tables declared by the DDL string of `DB.generate_db` (db.py), with
their column counts: `wars(war_number, last_fetched_on)`,
`maps(map_name, war_number)`,
`major_labels(map_name, war_number, label, x, y)`,
`icon_type_names(icon_id, icon_text)`,
`icons(map_name, war_number, x, y, icon_type)` and
`tickets(ticket_number, war_number, destination_map_name, destination_x,
destination_y, destination_description, origin_map_name, origin_x,
origin_y, origin_description, objective_description, created_on)`.
There is no table named `labels` and no table named `users`. -/
def generate_db_tables : List (String × Nat) :=
  [("wars", 2), ("maps", 2), ("major_labels", 5),
   ("icon_type_names", 2), ("icons", 5), ("tickets", 12)]

/-- A SQLite value bound to a statement parameter. -/
inductive SQLVal where
  | int (i : Int)
  | real (r : Rat)
  | text (t : String)
  | null
  deriving DecidableEq, Repr

/-- Executing `INSERT INTO table VALUES (...)` against a schema: SQLite
first resolves the table name (`OperationalError: no such table`
otherwise) and requires a bare VALUES list to supply exactly one value per
column (`OperationalError: table t has N columns but M values were
supplied` otherwise). -/
def execBareInsert (tables : List (String × Nat)) (table : String)
    (row : List SQLVal) : Except PyError Unit :=
  match tables.lookup table with
  | none => .error (.noSuchTable table)
  | some cols =>
    if row.length == cols then .ok ()
    else .error (.arityMismatch table cols row.length)

/-- The statement of `labels.insert_label`, `INSERT INTO labels VALUES
(?, ?, ?, ?, ?)`, executed against the schema `DB.generate_db` declares. -/
def insert_label_sql (map_name : String) (war_number : Int) (label : String)
    (x y : Rat) : Except PyError Unit :=
  execBareInsert generate_db_tables "labels"
    [.text map_name, .int war_number, .text label, .real x, .real y]

/-- The statement of `icons.insert_icon`, `INSERT INTO icons VALUES
(?, ?, ?, ?, ?, ?)`, executed against the schema `DB.generate_db`
declares. -/
def insert_icon_sql (map_name : String) (war_number : Int) (x y : Rat)
    (icon_type flags : Int) : Except PyError Unit :=
  execBareInsert generate_db_tables "icons"
    [.text map_name, .int war_number, .real x, .real y, .int icon_type, .int flags]

/-! Concrete fixtures used by the claim theorems, mirroring the repository
test data (war 10, hexes FoobarHex and BarbazHex). -/

/-- The wars row of war 10. -/
def warTenRow : WarRow := ⟨10, "2023-06-01T12:00:00"⟩

/-- A datetime used as the observation time of fresh inserts. -/
def dtNow : PyDatetime := ⟨"2023-06-02T12:00:00"⟩

/-- A connection over an empty database. -/
def connEmpty : Conn := freshConn {}

/-- A connection over a database recording war 10 and nothing else. -/
def connWar10 : Conn := freshConn { wars := [warTenRow] }

/-- A connection recording war 10 with one hex map for it. -/
def connWar10Foobar : Conn :=
  freshConn { wars := [warTenRow], maps := [⟨"FoobarHex", 10⟩] }

/-- A Map Data Source whose war has advanced to 11 with one hex, and whose
label fetch fails with a network error mid-sync. -/
def apiLabelsFail : WarAPI where
  get_war := .ok (11, dtNow)
  get_maps := .ok ["FoobarHex"]
  get_labels := fun _ => .error .networkError
  get_icons := fun _ => .ok []

/-- A Map Data Source still reporting war 10 (the war has not advanced),
with healthy hex, label and icon fetches. -/
def apiWar10 : WarAPI where
  get_war := .ok (10, dtNow)
  get_maps := .ok ["FoobarHex"]
  get_labels := fun _ => .ok [⟨"Thing A", 24/100, 93/100, "Major"⟩]
  get_icons := fun _ => .ok [⟨25/100, 30/100, 25, 0⟩]

/-- C1: the claim says a `sync_war` run that inserts the War row and then
fails during steps 3-4 leaves no War, Map, Label or Icon row visible and
that a retry behaves as if nothing happened.  The code instead: commits the
new war row inside `insert_war` and each hex map row inside the loop, so
after a label fetch fails, war 11 and its first map row remain durably
visible; and the retry run raises `TypeError` (a fresh read of
`select_latest_war` over a non-empty wars table) instead of behaving like a
first attempt. -/
theorem sync_war_partial_failure_leaves_committed_rows :
    (sync_war apiLabelsFail connEmpty).2 = some .networkError
    ∧ (sync_war apiLabelsFail connEmpty).1.committed.wars
        = [⟨11, "2023-06-02T12:00:00"⟩]
    ∧ (sync_war apiLabelsFail connEmpty).1.committed.maps = [⟨"FoobarHex", 11⟩]
    ∧ (sync_war apiLabelsFail
        (freshConn (sync_war apiLabelsFail connEmpty).1.committed)).2
        = some .typeError := by
  exact ⟨rfl, rfl, rfl, rfl⟩

/-- C2: the claim says `insert_war` fails with `InvalidArgument` on a
negative number, `AlreadyExists` on a duplicate, `StaleWar` below the
maximum, and otherwise succeeds and commits.  The first two parts hold, but
with any war already on record the staleness check calls
`select_latest_war`, whose date conversion raises `TypeError`
unconditionally: inserting war 9 over war 10 raises `TypeError` instead of
`StaleWar`, and inserting war 11 over war 10 raises `TypeError` instead of
succeeding.  Success happens only into an empty table. -/
theorem insert_war_behaviour_at_fixtures :
    insert_war (-1) dtNow connEmpty = .error .valueError
    ∧ insert_war 10 dtNow connWar10 = .error .uniqueRowAlreadyExists
    ∧ insert_war 9 dtNow connWar10 = .error .typeError
    ∧ insert_war 11 dtNow connWar10 = .error .typeError
    ∧ insert_war 10 dtNow connEmpty
        = .ok (freshConn { wars := [⟨10, "2023-06-02T12:00:00"⟩] }) := by
  exact ⟨rfl, rfl, rfl, rfl, rfl⟩

/-- C3: the claim says `latest_war()` returns the maximum-numbered War row
when the wars table is non-empty and an explicit none when it is empty.
The empty half holds, but on any non-empty table the row conversion calls
`DB.format_date_from_db`, which applies `fromisoformat` to the builtin
`str` type and raises `TypeError`; no row is ever returned. -/
theorem select_latest_war_crashes_on_any_row :
    select_latest_war connEmpty = .ok none
    ∧ select_latest_war connWar10 = .error .typeError := by
  exact ⟨rfl, rfl⟩

/-- C4: the claim says that when the fetched war number is at most the
latest recorded one, `sync_war` stops as a no-op without error.  With war
10 on record and the source reporting war 10, the code instead propagates
the `TypeError` raised by `select_latest_war` before the comparison is ever
made.  (The no-baseline half of the claim — ingest unconditionally when
storage is empty — does hold and is exercised inside the C1 run.) -/
theorem sync_war_errors_instead_of_noop :
    sync_war apiWar10 connWar10 = (connWar10, some .typeError) := by
  exact rfl

/-- C5: the claim says `latest_maps()` fails with `NoData` on an empty maps
table, `StaleData` when rows exist but none match the latest war, and
otherwise returns the latest-war rows.  The code first unpacks
`select_latest_war(conn)`, so every storage state raises `TypeError`
instead: with war 10 and no maps (claim: `NoData`), with war 10 and only a
war-9 map (claim: `StaleData`), with war 10 and a war-10 map (claim: that
row), and with an empty database (claim: `NoData`), where the `None`
returned for an empty wars table fails the tuple unpacking. -/
theorem select_latest_maps_crashes_on_every_state :
    select_latest_maps connWar10 = .error .typeError
    ∧ select_latest_maps
        (freshConn { wars := [warTenRow], maps := [⟨"FoobarHex", 9⟩] })
        = .error .typeError
    ∧ select_latest_maps connWar10Foobar = .error .typeError
    ∧ select_latest_maps connEmpty = .error .typeError := by
  exact ⟨rfl, rfl, rfl, rfl⟩

/-- C6: the claim says `latest_icons_for_map` raises `NoData` on an empty
maps table, `MapNotInCurrentWar` (with a last-known-war diagnostic) when
the map is absent from the latest war, and otherwise returns that map's
icons.  The code first unpacks `select_latest_war(conn)`, which raises
`TypeError` on every storage state — empty wars table (`None` unpacking) or
not (the date conversion) — so none of the three claimed behaviours is
reachable; shown on an empty database, on a state where FoobarHex is not a
war-10 map, and on a state where it is and has an icon. -/
theorem get_latest_icons_crashes_on_every_state :
    get_latest_icons_for_map "FoobarHex" connEmpty = .error .typeError
    ∧ get_latest_icons_for_map "FoobarHex"
        (freshConn { wars := [warTenRow], maps := [⟨"BarbazHex", 10⟩] })
        = .error .typeError
    ∧ get_latest_icons_for_map "FoobarHex"
        (freshConn { wars := [warTenRow], maps := [⟨"FoobarHex", 10⟩],
                     icons := [⟨"FoobarHex", 10, 25/100, 30/100, 25, 0⟩] })
        = .error .typeError := by
  exact ⟨rfl, rfl, rfl⟩

/-- The test user of the C9 fixture. -/
def userTeamster : User := ⟨42, "test_guild", .TEAMSTER⟩

/-- C9: the claim says `user_role` fails with `NotFound` when no row is
stored and returns exactly the upserted role after
`upsert_user_role`.  The absent half holds, but the lookup half is broken:
`select_user_role` evaluates `Role[results[0]]`, passing the whole fetched
row tuple `("TEAMSTER",)` rather than its string to the enum member lookup,
which raises `KeyError`; the upsert-then-lookup round trip never returns a
role. -/
theorem user_role_roundtrip_broken :
    select_user_role 42 "test_guild" connEmpty = .error .uniqueRowNotFound
    ∧ select_user_role 42 "test_guild" (insert_or_update_user userTeamster connEmpty)
        = .error .keyError := by
  exact ⟨rfl, rfl⟩

/-- C10: against the schema declared by `DB.generate_db`, every
`insert_label` fails — its statement names the table `labels`, which the
DDL does not define (the label table is `major_labels`) — and every
`insert_icon` fails — it supplies six values to the `icons` table, which
the DDL gives five columns.  Both fail for all inputs, with storage-level
`OperationalError`s. -/
theorem insert_label_and_icon_always_rejected
    (map_name : String) (war_number : Int) (label : String) (x y : Rat)
    (icon_type flags : Int) :
    insert_label_sql map_name war_number label x y
        = .error (.noSuchTable "labels")
    ∧ insert_icon_sql map_name war_number x y icon_type flags
        = .error (.arityMismatch "icons" 5 6) := by
  exact ⟨rfl, rfl⟩

/-- Evaluation of the war assertion of `insert_ticket` over a non-empty
wars table: it reduces to the two comparisons against the maximum recorded
war number. -/
theorem assert_war_eval (war_number : Int) (conn : Conn) (w0 : WarRow)
    (rest : List WarRow) (hw : conn.pending.wars = w0 :: rest) :
    assert_war_is_real_and_current war_number conn =
      if war_number < listMax w0.war_number (rest.map WarRow.war_number) then
        .error .cannotCreateTicketForWar
      else if war_number > listMax w0.war_number (rest.map WarRow.war_number) then
        .error .cannotCreateTicketForWar
      else
        .ok () := by
  unfold assert_war_is_real_and_current
  rw [hw]
  simp only [List.map_cons, List.map_map, List.length_cons]
  rfl

/-- Evaluation of the map assertion of `insert_ticket` when the queried
`(map_name, war_number)` pair is on record. -/
theorem assert_map_eval_ok (map_name : String) (war_number : Int) (conn : Conn)
    (h : MapRow.mk map_name war_number ∈ conn.pending.maps) :
    assert_map_is_real_and_current map_name war_number conn = .ok () := by
  have h1 : map_name ∈ conn.pending.maps.map MapRow.map_name :=
    List.mem_map.mpr ⟨_, h, rfl⟩
  unfold assert_map_is_real_and_current
  rw [if_neg (not_not_intro h1), if_neg (not_not_intro h)]

/-- C7: `create_ticket` rejects with `CannotCreateTicketForWar` whenever the
draft war number differs from the maximum recorded war number — both below
it (a past war) and above it (a not-yet-synced future war) — and succeeds,
returning the fresh id, when it is exactly equal, given a destination map
on record for that war (and, when all four origin fields are supplied, an
origin map on record for it too, as spec section 4.3 step 4 requires). -/
theorem create_ticket_war_binding (t : Ticket) (conn : Conn) (w0 : WarRow)
    (rest : List WarRow) (hw : conn.pending.wars = w0 :: rest) :
    (t.war_number ≠ listMax w0.war_number (rest.map WarRow.war_number) →
      insert_ticket t conn = .error .cannotCreateTicketForWar)
    ∧ (t.war_number = listMax w0.war_number (rest.map WarRow.war_number) →
        MapRow.mk t.destination_map_name t.war_number ∈ conn.pending.maps →
        (has_valid_origin t = false
          ∨ ∃ o, t.origin_map_name = some o
              ∧ MapRow.mk o t.war_number ∈ conn.pending.maps) →
        ∃ c, insert_ticket t conn
          = .ok (next_ticket_number conn.pending.tickets, c)) := by
  have ha := assert_war_eval t.war_number conn w0 rest hw
  constructor
  · intro hne
    unfold insert_ticket
    rw [ha]
    rcases lt_or_gt_of_ne hne with hlt | hgt
    · rw [if_pos hlt]
      rfl
    · rw [if_neg (not_lt_of_gt hgt), if_pos hgt]
      rfl
  · intro heq hdest horig
    unfold insert_ticket
    rw [ha, if_neg (by omega), if_neg (by omega),
      assert_map_eval_ok t.destination_map_name t.war_number conn hdest]
    cases hov : has_valid_origin t with
    | false =>
      exact ⟨_, rfl⟩
    | true =>
      rcases horig with hnone | ⟨o, ho, hom⟩
      · simp [hov] at hnone
      · rw [ho]
        exact ⟨_, by simp only [assert_map_eval_ok o t.war_number conn hom]; rfl⟩

/-- A draft for war 9 (one below the recorded war 10), destination
FoobarHex, no origin. -/
def ticketWar9 : Ticket :=
  ⟨9, "FoobarHex", 24/100, 93/100, "the bunker", none, none, none, none,
    "bring bmats", dtNow⟩

/-- A draft for war 11 (one above the recorded war 10). -/
def ticketWar11 : Ticket :=
  ⟨11, "FoobarHex", 24/100, 93/100, "the bunker", none, none, none, none,
    "bring bmats", dtNow⟩

/-- A draft for the recorded war 10 with a valid destination. -/
def ticketWar10 : Ticket :=
  ⟨10, "FoobarHex", 24/100, 93/100, "the bunker", none, none, none, none,
    "bring bmats", dtNow⟩

/-- Witness for C7: over a database recording war 10 and the war-10 map
FoobarHex, drafts for wars 9 and 11 are rejected with
`CannotCreateTicketForWar` and the war-10 draft succeeds with id 1. -/
theorem create_ticket_war_binding_witness :
    insert_ticket ticketWar9 connWar10Foobar = .error .cannotCreateTicketForWar
    ∧ insert_ticket ticketWar11 connWar10Foobar = .error .cannotCreateTicketForWar
    ∧ ∃ c, insert_ticket ticketWar10 connWar10Foobar = .ok (1, c) :=
  ⟨(create_ticket_war_binding ticketWar9 connWar10Foobar warTenRow [] rfl).1
      (by decide),
   (create_ticket_war_binding ticketWar11 connWar10Foobar warTenRow [] rfl).1
      (by decide),
   (create_ticket_war_binding ticketWar10 connWar10Foobar warTenRow [] rfl).2
      (by decide) (by decide) (Or.inl (by decide))⟩

/-- C8: a draft carrying at least one but not all of the four origin fields
passes validation (given a current war number and a destination map on
record), is accepted, and is stored with all four origin columns NULL —
never partially populated.  The stored row is exhibited in full. -/
theorem create_ticket_partial_origin_dropped (t : Ticket) (conn : Conn)
    (w0 : WarRow) (rest : List WarRow) (hw : conn.pending.wars = w0 :: rest)
    (heq : t.war_number = listMax w0.war_number (rest.map WarRow.war_number))
    (hdest : MapRow.mk t.destination_map_name t.war_number ∈ conn.pending.maps)
    (_hsome : (t.origin_map_name.isSome || t.origin_x.isSome
        || t.origin_y.isSome || t.origin_description.isSome) = true)
    (hnotall : has_valid_origin t = false) :
    ∃ c, insert_ticket t conn
        = .ok (next_ticket_number conn.pending.tickets, c)
      ∧ c.committed.tickets = conn.pending.tickets ++
          [⟨next_ticket_number conn.pending.tickets, t.war_number,
            t.destination_map_name, t.destination_x, t.destination_y,
            t.destination_description, none, none, none, none,
            t.objective_description, format_date_for_db t.created_on⟩] := by
  have ha := assert_war_eval t.war_number conn w0 rest hw
  unfold insert_ticket
  rw [ha, if_neg (by omega), if_neg (by omega),
    assert_map_eval_ok t.destination_map_name t.war_number conn hdest,
    if_neg (by simp [hnotall])]
  refine ⟨_, rfl, ?_⟩
  rw [hnotall]
  rfl

/-- A war-10 draft carrying two of the four origin fields (map name and x,
but no y and no description). -/
def ticketPartialOrigin : Ticket :=
  ⟨10, "FoobarHex", 24/100, 93/100, "the bunker", some "BarbazHex",
    some (19/100), none, none, "haul tripods", dtNow⟩

/-- Witness for C8: the two-of-four-origin-fields draft is accepted over
the war-10 fixture and stored with every origin column NULL. -/
theorem create_ticket_partial_origin_dropped_witness :
    ∃ c, insert_ticket ticketPartialOrigin connWar10Foobar = .ok (1, c)
      ∧ c.committed.tickets =
          [⟨1, 10, "FoobarHex", 24/100, 93/100, "the bunker",
            none, none, none, none, "haul tripods", "2023-06-02T12:00:00"⟩] :=
  create_ticket_partial_origin_dropped ticketPartialOrigin connWar10Foobar
    warTenRow [] rfl (by decide) (by decide) (by decide) (by decide)

end PFLTK
